import Mathlib

/-!
# Verification of the coraserver HTTP service (src/main.go)

A shallow embedding of `main.go`: a small campus-timetable query service with
a Microsoft OAuth login flow. External collaborators are modelled as explicit
parameters:

* the database layer (`db.GetFreeClass`, `db.GetFreeSlot`,
  `db.GetTimetableByDay`, a package of this repository not included in src/)
  is passed in as a function argument, so every theorem quantifies over all
  possible database answers;
* the `golang.org/x/oauth2` token exchange and the outbound Microsoft Graph
  HTTP calls are described by an `ExchangeEnv` record of outcomes;
* the per-call `math/rand` source is a stream of draws `Nat → Fin 62`
  (each `rand.Intn(62)` result is in `[0, 62)`).

Go standard-library helpers that the handlers rely on (`http.Error`,
`strconv.Atoi`, `encoding/json.Marshal` on `[]string`/`[]int`,
`url.Values.Get`) are translated faithfully from their documented stdlib
semantics, since their exact behaviour (status line, headers, trailing
newline) is what several spec sentences are about.
-/

set_option autoImplicit false

namespace Coraserver

/-- An HTTP response as observed by a client: status code, the
`Content-Type` header, the body bytes, and the `Location` header
(empty when unset). -/
structure Response where
  status : Nat
  contentType : String
  body : String
  location : String := ""
  deriving Repr, DecidableEq

/-- `r.URL.Query().Get(key)`: the first value associated to `key` in the
query string, or `""` when the key is absent (Go `url.Values.Get`). -/
def queryGet : List (String × String) → String → String
  | [], _ => ""
  | (k, v) :: rest, key => if k = key then v else queryGet rest key

/-- `net/http`'s `http.Error(w, msg, code)`: sets
`Content-Type: text/plain; charset=utf-8`, writes the status code, and
writes the message through `fmt.Fprintln`, which appends a newline. -/
def httpError (msg : String) (code : Nat) : Response :=
  { status := code, contentType := "text/plain; charset=utf-8", body := msg ++ "\n" }

/-- Decimal digits of a natural number accumulated left to right,
matching `strconv` base-10 parsing. -/
def digitsVal (ds : List Char) : Nat :=
  ds.foldl (fun acc c => acc * 10 + (c.toNat - 48)) 0

/-- `strconv.Atoi`: optional single `+`/`-` sign, then one or more ASCII
digits; any other shape is a syntax error, and values outside the 64-bit
signed range are a range error. -/
def atoi (s : String) : Except String Int :=
  let cs := s.data
  let signed : Int × List Char :=
    match cs with
    | '+' :: rest => (1, rest)
    | '-' :: rest => (-1, rest)
    | _ => (1, cs)
  if signed.2 = [] then Except.error "invalid syntax"
  else if signed.2.all Char.isDigit then
    let v : Int := signed.1 * (digitsVal signed.2 : Int)
    if v < -(2 ^ 63) ∨ v > 2 ^ 63 - 1 then Except.error "value out of range"
    else Except.ok v
  else Except.error "invalid syntax"

/-- Two lowercase hex digits of `n % 256`, as in `encoding/json`'s
`\u00XX` escapes. -/
def hexByte (n : Nat) : String :=
  let digit : Nat → Char := fun d => if d < 10 then Char.ofNat (48 + d) else Char.ofNat (87 + d)
  String.mk [digit (n / 16 % 16), digit (n % 16)]

/-- `encoding/json` escaping of a single character inside a string
literal: quote, backslash, the named control escapes, `\u00XX` for other
control characters, and the default HTML-safe escapes for `<`, `>`, `&`,
U+2028 and U+2029. -/
def jsonEscapeChar (c : Char) : String :=
  if c = '"' then "\\\""
  else if c = '\\' then "\\\\"
  else if c = '\n' then "\\n"
  else if c = '\r' then "\\r"
  else if c = '\t' then "\\t"
  else if c.toNat < 32 then "\\u00" ++ hexByte c.toNat
  else if c = '<' then "\\u003c"
  else if c = '>' then "\\u003e"
  else if c = '&' then "\\u0026"
  else if c.toNat = 0x2028 then "\\u2028"
  else if c.toNat = 0x2029 then "\\u2029"
  else String.singleton c

/-- A JSON string literal for `s`. -/
def jsonString (s : String) : String :=
  "\"" ++ String.join (s.data.map jsonEscapeChar) ++ "\""

/-- `json.Marshal` on a `[]string` value. The encoder for string slices
never returns an error (every element encoder is infallible), so the
result is always `ok`; the handler's 500 branch matches on the error
case all the same, as the Go code does. -/
def jsonMarshalStringList (l : List String) : Except String String :=
  Except.ok ("[" ++ String.intercalate "," (l.map jsonString) ++ "]")

/-- `json.Marshal` on an `[]int` value; infallible for the same reason. -/
def jsonMarshalIntList (l : List Int) : Except String String :=
  Except.ok ("[" ++ String.intercalate "," (l.map toString) ++ "]")

/-- `freeClassHandler` (src/main.go lines 174-195): parse `slot`, reject
non-integers with `http.Error(w, "Invalid slot value", 400)`, otherwise
call `db.GetFreeClass(slot, day)` and write the marshalled list with
`Content-Type: application/json` (implicit status 200 on first write).
The second component records the database calls issued. -/
def freeClassHandler (db : Int → String → List String)
    (query : List (String × String)) : Response × List (Int × String) :=
  let slotStr := queryGet query "slot"
  let day := queryGet query "day"
  match atoi slotStr with
  | Except.error _ => (httpError "Invalid slot value" 400, [])
  | Except.ok slot =>
    let classroom := db slot day
    match jsonMarshalStringList classroom with
    | Except.error e => (httpError e 500, [(slot, day)])
    | Except.ok jsonResponse =>
      ({ status := 200, contentType := "application/json", body := jsonResponse },
        [(slot, day)])

/-- `freeSlotHandler` (src/main.go lines 197-213): read `class` and `day`,
call `db.GetFreeSlot(class, day)`, and write the marshalled int list with
`Content-Type: application/json`. -/
def freeSlotHandler (db : String → String → List Int)
    (query : List (String × String)) : Response × List (String × String) :=
  let class_ := queryGet query "class"
  let day := queryGet query "day"
  let slot := db class_ day
  match jsonMarshalIntList slot with
  | Except.error e => (httpError e 500, [(class_, day)])
  | Except.ok jsonResponse =>
    ({ status := 200, contentType := "application/json", body := jsonResponse },
      [(class_, day)])

/-- `dayTimetableHandler` (src/main.go lines 215-231): read `class` and
`day`, call `db.GetTimetableByDay(class, day)`, and write the marshalled
string list with `Content-Type: application/json`. -/
def dayTimetableHandler (db : String → String → List String)
    (query : List (String × String)) : Response × List (String × String) :=
  let class_ := queryGet query "class"
  let day := queryGet query "day"
  let subject := db class_ day
  match jsonMarshalStringList subject with
  | Except.error e => (httpError e 500, [(class_, day)])
  | Except.ok jsonResponse =>
    ({ status := 200, contentType := "application/json", body := jsonResponse },
      [(class_, day)])

/-- Outcome of the `client.Do(req)` call inside `requestGraphAPI`
(src/main.go lines 108-135). `http.NewRequest` cannot fail here: the
method and the constant `https://graph.microsoft.com/v1.0/...` URL are
always valid, so that early-return branch is dead and not modelled.

* `fail msg`: `client.Do` returned an error;
* `resp statusCode status readResult`: the provider answered with the
  given numeric code and status line (e.g. `403` and `"403 Forbidden"`),
  and `readResult` is the outcome of `ioutil.ReadAll` on the body. -/
inductive DoResult where
  | fail (msg : String)
  | resp (statusCode : Nat) (status : String) (readResult : Except String String)
  deriving Repr

/-- The external collaborators of `oauthExchangeHandler`:
`oauthConfig.Exchange` (code to access token, an error string on
failure) and the network outcome of each authenticated Graph GET,
indexed by bearer token and endpoint (`"me"` or `"organization"`). -/
structure ExchangeEnv where
  exchange : String → Except String String
  graphDo : String → String → DoResult

/-- `requestGraphAPI(accessToken, endpoint)` (src/main.go lines
108-135): issue the GET; on a `client.Do` error return it; on a non-200
status return `fmt.Errorf("unexpected response status: %s", resp.Status)`;
otherwise return the result of reading the body. -/
def requestGraphAPI (env : ExchangeEnv) (accessToken endpoint : String) :
    Except String String :=
  match env.graphDo accessToken endpoint with
  | DoResult.fail msg => Except.error msg
  | DoResult.resp statusCode status readResult =>
    if statusCode ≠ 200 then
      Except.error ("unexpected response status: " ++ status)
    else readResult

/-- `oauthExchangeHandler` (src/main.go lines 137-172): read `code` from
the query, exchange it; on failure answer 400 `text/plain` with the
error text. Then fetch the profile (`"me"`), then the organization; each
failure answers 403 `text/plain` with the error text. On full success
answer 200 `application/json` with profile, a newline, organization.
The second component is the list of Graph endpoints requested, in
order. -/
def oauthExchangeHandler (env : ExchangeEnv) (query : List (String × String)) :
    Response × List String :=
  let code := queryGet query "code"
  match env.exchange code with
  | Except.error e =>
    ({ status := 400, contentType := "text/plain; charset=utf-8", body := e }, [])
  | Except.ok accessToken =>
    match requestGraphAPI env accessToken "me" with
    | Except.error e =>
      ({ status := 403, contentType := "text/plain; charset=utf-8", body := e }, ["me"])
    | Except.ok userProfileJSON =>
      match requestGraphAPI env accessToken "organization" with
      | Except.error e =>
        ({ status := 403, contentType := "text/plain; charset=utf-8", body := e },
          ["me", "organization"])
      | Except.ok userOrgJSON =>
        ({ status := 200, contentType := "application/json",
           body := userProfileJSON ++ "\n" ++ userOrgJSON },
          ["me", "organization"])

/-! ## Random state generation and the login handler -/

/-- The `charset` constant of `generateRandomString` (src/main.go line 93). -/
def charsetChars : List Char :=
  "abcdefghijklmnopqrstuvwxyzABCDEFGHIJKLMNOPQRSTUVWXYZ0123456789".data

theorem charsetChars_length : charsetChars.length = 62 := by decide

/-- `generateRandomString(length)` (src/main.go lines 92-100): seed the
global `math/rand` source from the clock, then draw `length` indices
with `rand.Intn(62)` and pick the corresponding `charset` characters.
The per-call source is modelled as the stream `src` of draws, each
already in `[0, 62)` as `Intn` guarantees. -/
def generateRandomString (src : Nat → Fin 62) (length : Nat) : String :=
  String.mk ((List.range length).map fun i =>
    charsetChars.get ⟨(src i).val, by rw [charsetChars_length]; exact (src i).isLt⟩)

/-- The OAuth endpoint pair of the provider. -/
structure Endpoint where
  authURL : String
  tokenURL : String
  deriving Repr, DecidableEq

/-- Modelled from the spec: `microsoft.AzureADEndpoint(tenant)` of
`golang.org/x/oauth2/microsoft` is not part of this repository; per the
spec the `tenant` string scopes the identity-provider directory, so the
endpoint URLs embed it. -/
def azureADEndpoint (tenant : String) : Endpoint :=
  { authURL := "https://login.microsoftonline.com/" ++ tenant ++ "/oauth2/v2.0/authorize",
    tokenURL := "https://login.microsoftonline.com/" ++ tenant ++ "/oauth2/v2.0/token" }

/-- The `oauth2.Config` value built by `init()` (src/main.go lines 65-71). -/
structure OAuthConfig where
  clientID : String
  clientSecret : String
  redirectURL : String
  scopes : List String
  endpoint : Endpoint
  deriving Repr, DecidableEq

/-- The non-`state` part of the authorization URL query. -/
def authURLStem (cfg : OAuthConfig) : String :=
  cfg.endpoint.authURL ++ "?access_type=online&client_id=" ++ cfg.clientID
    ++ "&prompt=select_account&redirect_uri=" ++ cfg.redirectURL
    ++ "&response_type=code&scope=" ++ String.intercalate " " cfg.scopes

/-- Modelled from the spec: `oauth2.Config.AuthCodeURL(state, ...)` is
library code not in this repository; per the spec it builds the
authorization redirect URL carrying `access_type=online`, a forced
account-selection prompt, the client settings, and the `state` token as
the `state` query parameter (alphabetically last, hence final). URL
escaping is omitted; the handlers only ever pass it alphanumeric
states. -/
def authCodeURL (cfg : OAuthConfig) (state : String) : String :=
  authURLStem cfg ++ "&state=" ++ state

/-- `oauthLoginHandler` (src/main.go lines 102-106): generate a fresh
16-character state, build the authorization URL, and reply through
`http.Redirect` with `302 Found`, the URL in `Location`, and an HTML
courtesy body (not modelled). -/
def oauthLoginHandler (cfg : OAuthConfig) (src : Nat → Fin 62) : Response :=
  let state := generateRandomString src 16
  let authURL := authCodeURL cfg state
  { status := 302, contentType := "text/html; charset=utf-8", body := "",
    location := authURL }

/-! ## Startup: the config loader -/

/-- The `oauthJSONRepr` struct (src/main.go lines 38-44): the shape of
`config.json`. -/
structure OauthJSONRepr where
  clientID : String
  clientSecret : String
  redirectURL : String
  scopes : List String
  tenant : String
  deriving Repr, DecidableEq

/-- `init()` (src/main.go lines 52-73). `readResult` is the outcome of
`ioutil.ReadFile(configFile)` and `unmarshal` the behaviour of
`encoding/json.Unmarshal` on the file contents (both outside this
repository). A `log.Fatal` diagnostic is modelled as `Except.error`:
the process terminates before `main` ever binds the listening socket,
so no server exists in the error case. -/
def initConfig (readResult : Except String String)
    (unmarshal : String → Except String OauthJSONRepr) :
    Except String OAuthConfig :=
  match readResult with
  | Except.error e => Except.error ("Error reading JSON file:" ++ e)
  | Except.ok file =>
    match unmarshal file with
    | Except.error e => Except.error ("Error unmarshalling JSON:" ++ e)
    | Except.ok jsonData =>
      Except.ok
        { clientID := jsonData.clientID,
          clientSecret := jsonData.clientSecret,
          redirectURL := jsonData.redirectURL,
          scopes := jsonData.scopes,
          endpoint := azureADEndpoint jsonData.tenant }

/-- A request to one of the five routes of the router (src/main.go lines
80-84), packaged with the external outcomes its handler consumes. -/
inductive Request where
  | login (src : Nat → Fin 62)
  | exchangeReq (env : ExchangeEnv) (query : List (String × String))
  | freeclass (db : Int → String → List String) (query : List (String × String))
  | freeslot (db : String → String → List Int) (query : List (String × String))
  | daytimetable (db : String → String → List String) (query : List (String × String))

/-- Dispatch of the router: each path is handled by exactly one handler;
only the login handler reads the process-wide config (the exchange
handler reads it through `ExchangeEnv`, its oauth2 client). -/
def handleRequest (cfg : OAuthConfig) : Request → Response
  | Request.login src => oauthLoginHandler cfg src
  | Request.exchangeReq env query => (oauthExchangeHandler env query).1
  | Request.freeclass db query => (freeClassHandler db query).1
  | Request.freeslot db query => (freeSlotHandler db query).1
  | Request.daytimetable db query => (dayTimetableHandler db query).1

/-- The serving loop after a successful startup: the process-wide
config is threaded through every request unchanged — no handler
reassigns it (no write to `oauthConfig` occurs after `init()`). -/
def serveAll (cfg : OAuthConfig) : List Request → OAuthConfig × List Response
  | [] => (cfg, [])
  | r :: rs =>
    let resp := handleRequest cfg r
    let rest := serveAll cfg rs
    (rest.1, resp :: rest.2)

/-! ## Helper lemmas -/

theorem charsetChars_nodup : charsetChars.Nodup := by decide

theorem charsetChars_alphanum : ∀ c ∈ charsetChars, c.isAlphanum = true := by decide

/-- `url.Values.Get` on an absent key yields the empty string. -/
theorem queryGet_eq_empty {q : List (String × String)} {key : String}
    (h : key ∉ q.map Prod.fst) : queryGet q key = "" := by
  induction q with
  | nil => rfl
  | cons p rest ih =>
    obtain ⟨k, v⟩ := p
    simp only [List.map_cons, List.mem_cons] at h
    push_neg at h
    simp only [queryGet]
    rw [if_neg fun e => h.1 e.symm]
    exact ih h.2

theorem generateRandomString_length (src : Nat → Fin 62) (n : Nat) :
    (generateRandomString src n).length = n := by
  simp [generateRandomString, String.length]

theorem generateRandomString_mem (src : Nat → Fin 62) (n : Nat) :
    ∀ c ∈ (generateRandomString src n).data, c ∈ charsetChars := by
  intro c hc
  simp only [generateRandomString] at hc
  obtain ⟨i, _, rfl⟩ := List.mem_map.mp hc
  exact List.get_mem _ _ _

theorem generateRandomString_ne (src src2 : Nat → Fin 62) (n i : Nat)
    (hi : i < n) (hne : src i ≠ src2 i) :
    generateRandomString src n ≠ generateRandomString src2 n := by
  intro heq
  have hdata := congrArg String.data heq
  simp only [generateRandomString] at hdata
  have hpt := (List.map_eq_map_iff).mp hdata i (List.mem_range.mpr hi)
  have hidx := (List.Nodup.get_inj_iff charsetChars_nodup).mp hpt
  exact hne (Fin.ext (congrArg Fin.val hidx))

theorem serveAll_fst (cfg : OAuthConfig) (reqs : List Request) :
    (serveAll cfg reqs).1 = cfg := by
  induction reqs with
  | nil => rfl
  | cons r rs ih => simp [serveAll, ih]

/-! ## Claims -/

/-- C1: for every list returned by the database layer, the db handlers
respond 200 with exactly `json.Marshal` of that list — `freeClassHandler`
on a valid integer `slot` writes the marshalled `db.GetFreeClass(slot, day)`
result, `freeSlotHandler` always writes the marshalled
`db.GetFreeSlot(class, day)` result, and the serialization-error 500
branch is never taken (the status is 200, and marshalling yields `ok` of
the body written). -/
theorem db_handlers_marshal_exactly (dbC : Int → String → List String)
    (dbS : String → String → List Int) (q qs : List (String × String)) (slot : Int)
    (h : atoi (queryGet q "slot") = Except.ok slot) :
    (freeClassHandler dbC q).1.status = 200 ∧
    jsonMarshalStringList (dbC slot (queryGet q "day")) =
      Except.ok (freeClassHandler dbC q).1.body ∧
    (freeSlotHandler dbS qs).1.status = 200 ∧
    jsonMarshalIntList (dbS (queryGet qs "class") (queryGet qs "day")) =
      Except.ok (freeSlotHandler dbS qs).1.body := by
  refine ⟨?_, ?_, ?_, ?_⟩ <;>
    simp [freeClassHandler, freeSlotHandler, h, jsonMarshalStringList, jsonMarshalIntList]

theorem db_handlers_marshal_exactly_witness :
    atoi (queryGet [("slot", "3"), ("day", "Mon")] "slot") = Except.ok 3 ∧
    (freeClassHandler (fun _ _ => ["Room A", "Room B"]) [("slot", "3"), ("day", "Mon")]).1.status
      = 200 ∧
    (freeClassHandler (fun _ _ => ["Room A", "Room B"]) [("slot", "3"), ("day", "Mon")]).1.body
      = "[\"Room A\",\"Room B\"]" ∧
    (freeSlotHandler (fun _ _ => [1, 4, 6]) [("class", "10A"), ("day", "Tue")]).1.status = 200 ∧
    (freeSlotHandler (fun _ _ => [1, 4, 6]) [("class", "10A"), ("day", "Tue")]).1.body
      = "[1,4,6]" := by
  have h := db_handlers_marshal_exactly (fun _ _ => ["Room A", "Room B"])
    (fun _ _ => [1, 4, 6]) [("slot", "3"), ("day", "Mon")] [("class", "10A"), ("day", "Tue")]
    3 rfl
  exact ⟨rfl, h.1, rfl, h.2.2.1, rfl⟩

/-- C2 counterexample: the claim says the 400 response body is exactly
`"Invalid slot value"`, but `http.Error` writes the message through
`fmt.Fprintln`, so the body carries a trailing newline. -/
theorem invalid_slot_exact_body_cex :
    (freeClassHandler (fun _ _ => []) [("slot", "abc"), ("day", "Mon")]).1.body
        ≠ "Invalid slot value" ∧
    (freeClassHandler (fun _ _ => []) [("slot", "abc"), ("day", "Mon")]).1.body
        = "Invalid slot value\n" := by
  constructor <;> decide

/-- C2 (amended): for every request whose `slot` query parameter does not
parse as an integer, `freeClassHandler` answers status 400 with body
`"Invalid slot value"` followed by the newline `http.Error` appends, and
the database lookup is not invoked (empty call trace). -/
theorem invalid_slot_400 (db : Int → String → List String)
    (q : List (String × String)) (h : ∃ e, atoi (queryGet q "slot") = Except.error e) :
    freeClassHandler db q =
      ({ status := 400, contentType := "text/plain; charset=utf-8",
         body := "Invalid slot value\n", location := "" }, []) := by
  obtain ⟨e, he⟩ := h
  simp [freeClassHandler, he, httpError]

theorem invalid_slot_400_witness :
    (∃ e, atoi (queryGet [("slot", "abc"), ("day", "Mon")] "slot") = Except.error e) ∧
    freeClassHandler (fun _ _ => ["Room X"]) [("slot", "abc"), ("day", "Mon")] =
      ({ status := 400, contentType := "text/plain; charset=utf-8",
         body := "Invalid slot value\n", location := "" }, []) :=
  ⟨⟨"invalid syntax", rfl⟩,
    invalid_slot_400 (fun _ _ => ["Room X"]) [("slot", "abc"), ("day", "Mon")]
      ⟨"invalid syntax", rfl⟩⟩

/-- C3: whenever the authorization-code exchange fails,
`oauthExchangeHandler` answers exactly status 400 (never 403 or 500)
with `Content-Type: text/plain; charset=utf-8` and the error text as
body, and no Graph API request (profile or organization) is issued. -/
theorem exchange_failure_400 (env : ExchangeEnv) (q : List (String × String))
    (e : String) (h : env.exchange (queryGet q "code") = Except.error e) :
    oauthExchangeHandler env q =
      ({ status := 400, contentType := "text/plain; charset=utf-8",
         body := e, location := "" }, []) := by
  simp [oauthExchangeHandler, h]

theorem exchange_failure_400_witness :
    oauthExchangeHandler
        ⟨fun c => Except.error ("oauth2: cannot fetch token for " ++ c),
          fun _ _ => DoResult.fail "unreached"⟩
        [("code", "expired"), ("state", "s")] =
      ({ status := 400, contentType := "text/plain; charset=utf-8",
         body := "oauth2: cannot fetch token for expired", location := "" }, []) :=
  exchange_failure_400 _ _ _ rfl

/-- C4: when the code exchange succeeds but a downstream Graph call
fails, `oauthExchangeHandler` answers 403 with
`Content-Type: text/plain; charset=utf-8` and the error text as body;
when the failure is a non-200 provider response, that body is
`"unexpected response status: "` followed by the provider's status text;
and the organization request is issued only after the profile request
has succeeded. -/
theorem downstream_failure_403 (env : ExchangeEnv) (q : List (String × String))
    (tok : String) (hx : env.exchange (queryGet q "code") = Except.ok tok) :
    (∀ e, requestGraphAPI env tok "me" = Except.error e →
      oauthExchangeHandler env q =
        ({ status := 403, contentType := "text/plain; charset=utf-8",
           body := e, location := "" }, ["me"])) ∧
    (∀ p e, requestGraphAPI env tok "me" = Except.ok p →
      requestGraphAPI env tok "organization" = Except.error e →
      oauthExchangeHandler env q =
        ({ status := 403, contentType := "text/plain; charset=utf-8",
           body := e, location := "" }, ["me", "organization"])) ∧
    (∀ code st rd, env.graphDo tok "me" = DoResult.resp code st rd → code ≠ 200 →
      (oauthExchangeHandler env q).1.body = "unexpected response status: " ++ st) ∧
    (∀ p code st rd, requestGraphAPI env tok "me" = Except.ok p →
      env.graphDo tok "organization" = DoResult.resp code st rd → code ≠ 200 →
      (oauthExchangeHandler env q).1.body = "unexpected response status: " ++ st) ∧
    ("organization" ∈ (oauthExchangeHandler env q).2 →
      ∃ p, requestGraphAPI env tok "me" = Except.ok p) := by
  refine ⟨?_, ?_, ?_, ?_, ?_⟩
  · intro e he
    simp [oauthExchangeHandler, hx, he]
  · intro p e hp he
    simp [oauthExchangeHandler, hx, hp, he]
  · intro code st rd hdo hcode
    have he : requestGraphAPI env tok "me" =
        Except.error ("unexpected response status: " ++ st) := by
      simp [requestGraphAPI, hdo, hcode]
    simp [oauthExchangeHandler, hx, he]
  · intro p code st rd hp hdo hcode
    have he : requestGraphAPI env tok "organization" =
        Except.error ("unexpected response status: " ++ st) := by
      simp [requestGraphAPI, hdo, hcode]
    simp [oauthExchangeHandler, hx, hp, he]
  · intro hmem
    cases hp : requestGraphAPI env tok "me" with
    | error e =>
      simp [oauthExchangeHandler, hx, hp] at hmem
    | ok p => exact ⟨p, rfl⟩

theorem downstream_failure_403_witness :
    oauthExchangeHandler
        ⟨fun _ => Except.ok "tok",
          fun _ ep =>
            if ep = "me" then DoResult.resp 403 "403 Forbidden" (Except.ok "")
            else DoResult.fail "unreached"⟩
        [("code", "good")] =
      ({ status := 403, contentType := "text/plain; charset=utf-8",
         body := "unexpected response status: 403 Forbidden", location := "" }, ["me"]) :=
  (downstream_failure_403
      ⟨fun _ => Except.ok "tok",
        fun _ ep =>
          if ep = "me" then DoResult.resp 403 "403 Forbidden" (Except.ok "")
          else DoResult.fail "unreached"⟩
      [("code", "good")] "tok" rfl).1 _ rfl

/-- C5: when the code exchange and both Graph calls succeed,
`oauthExchangeHandler` answers 200 with
`Content-Type: application/json` and body equal to the profile payload,
one newline, then the organization payload, in that order. -/
theorem exchange_full_success_200 (env : ExchangeEnv) (q : List (String × String))
    (tok p o : String) (hx : env.exchange (queryGet q "code") = Except.ok tok)
    (hp : requestGraphAPI env tok "me" = Except.ok p)
    (ho : requestGraphAPI env tok "organization" = Except.ok o) :
    oauthExchangeHandler env q =
      ({ status := 200, contentType := "application/json",
         body := p ++ "\n" ++ o, location := "" }, ["me", "organization"]) := by
  simp [oauthExchangeHandler, hx, hp, ho]

theorem exchange_full_success_200_witness :
    oauthExchangeHandler
        ⟨fun _ => Except.ok "tok",
          fun _ ep =>
            DoResult.resp 200 "200 OK"
              (Except.ok (if ep = "me" then "PROFILE" else "ORG"))⟩
        [("code", "good")] =
      ({ status := 200, contentType := "application/json",
         body := "PROFILE\nORG", location := "" }, ["me", "organization"]) :=
  exchange_full_success_200 _ _ "tok" "PROFILE" "ORG" rfl rfl rfl

/-- C6: every login response is a 302 redirect whose Location URL
carries a `state` query parameter (last in the URL) that is a
16-character string over `[A-Za-z0-9]`; and states from different
random draws are distinct — any two per-call sources that disagree on
some draw among the first 16 produce different states, which is what
fresh random generation each call gives probabilistically. -/
theorem login_redirect_state (cfg : OAuthConfig) (src : Nat → Fin 62) :
    (oauthLoginHandler cfg src).status = 302 ∧
    (oauthLoginHandler cfg src).location =
      authURLStem cfg ++ "&state=" ++ generateRandomString src 16 ∧
    (generateRandomString src 16).length = 16 ∧
    (∀ c ∈ (generateRandomString src 16).data, c.isAlphanum = true) ∧
    (∀ src2 : Nat → Fin 62, ∀ i : Nat, i < 16 → src i ≠ src2 i →
      generateRandomString src 16 ≠ generateRandomString src2 16) := by
  refine ⟨rfl, rfl, generateRandomString_length src 16, ?_, ?_⟩
  · intro c hc
    exact charsetChars_alphanum c (generateRandomString_mem src 16 c hc)
  · intro src2 i hi hne
    exact generateRandomString_ne src src2 16 i hi hne

theorem login_redirect_state_witness :
    (oauthLoginHandler
        ⟨"client", "secret", "https://example.org/cb", ["User.Read"],
          azureADEndpoint "contoso"⟩ (fun _ => (0 : Fin 62))).status = 302 ∧
    (generateRandomString (fun _ => (0 : Fin 62)) 16).length = 16 ∧
    (∀ c ∈ (generateRandomString (fun _ => (0 : Fin 62)) 16).data,
      c.isAlphanum = true) ∧
    generateRandomString (fun _ => (0 : Fin 62)) 16 ≠
      generateRandomString (fun _ => (1 : Fin 62)) 16 := by
  have h := login_redirect_state
    ⟨"client", "secret", "https://example.org/cb", ["User.Read"],
      azureADEndpoint "contoso"⟩ (fun _ => (0 : Fin 62))
  exact ⟨h.1, h.2.2.1, h.2.2.2.1, h.2.2.2.2 (fun _ => (1 : Fin 62)) 0 (by decide) (by decide)⟩

/-- C7: the exchange handler never reads the `state` parameter — any two
requests whose query strings agree everywhere except possibly at
`state` get identical responses (same status, headers, body, and the
same Graph calls are issued). -/
theorem exchange_ignores_state (env : ExchangeEnv) (q1 q2 : List (String × String))
    (h : ∀ k, k ≠ "state" → queryGet q1 k = queryGet q2 k) :
    oauthExchangeHandler env q1 = oauthExchangeHandler env q2 := by
  have hc : queryGet q1 "code" = queryGet q2 "code" := h "code" (by decide)
  simp [oauthExchangeHandler, hc]

theorem exchange_ignores_state_witness :
    oauthExchangeHandler
        ⟨fun c => Except.error ("bad code " ++ c), fun _ _ => DoResult.fail "x"⟩
        [("code", "abc"), ("state", "s1")] =
      oauthExchangeHandler
        ⟨fun c => Except.error ("bad code " ++ c), fun _ _ => DoResult.fail "x"⟩
        [("code", "abc"), ("state", "s2")] :=
  exchange_ignores_state _ _ _ (by
    intro k hk
    have h2 : ("state" = k) = False := eq_false fun e => hk e.symm
    simp [queryGet, h2])

/-- C8 counterexample: the 400 "Invalid slot value" response of
`freeClassHandler` is written through `http.Error`, which sets
`Content-Type: text/plain; charset=utf-8`, not `application/json` as the
claim states. -/
theorem db_error_content_type_cex :
    (freeClassHandler (fun _ _ => []) [("slot", "x"), ("day", "Mon")]).1.contentType
        = "text/plain; charset=utf-8" ∧
    (freeClassHandler (fun _ _ => []) [("slot", "x"), ("day", "Mon")]).1.contentType
        ≠ "application/json" := by
  constructor <;> decide

/-- C8 (amended): every JSON success response (the three db handlers'
200 answers and the OAuth exchange's 200 answer) carries
`Content-Type: application/json`; the two OAuth error paths (400 and
403) carry `text/plain; charset=utf-8`; and the db handlers' error
responses, written via `http.Error`, also carry
`text/plain; charset=utf-8`, not `application/json`. -/
theorem content_type_policy :
    (∀ (db : Int → String → List String) (q : List (String × String)) (slot : Int),
      atoi (queryGet q "slot") = Except.ok slot →
      (freeClassHandler db q).1.contentType = "application/json") ∧
    (∀ (db : Int → String → List String) (q : List (String × String)),
      (∃ e, atoi (queryGet q "slot") = Except.error e) →
      (freeClassHandler db q).1.contentType = "text/plain; charset=utf-8") ∧
    (∀ (db : String → String → List Int) (q : List (String × String)),
      (freeSlotHandler db q).1.contentType = "application/json") ∧
    (∀ (db : String → String → List String) (q : List (String × String)),
      (dayTimetableHandler db q).1.contentType = "application/json") ∧
    (∀ (env : ExchangeEnv) (q : List (String × String)),
      ((oauthExchangeHandler env q).1.status = 200 ∧
        (oauthExchangeHandler env q).1.contentType = "application/json") ∨
      ((oauthExchangeHandler env q).1.status ≠ 200 ∧
        (oauthExchangeHandler env q).1.contentType = "text/plain; charset=utf-8")) := by
  refine ⟨?_, ?_, ?_, ?_, ?_⟩
  · intro db q slot h
    simp [freeClassHandler, h, jsonMarshalStringList]
  · rintro db q ⟨e, he⟩
    simp [freeClassHandler, he, httpError]
  · intro db q
    simp [freeSlotHandler, jsonMarshalIntList]
  · intro db q
    simp [dayTimetableHandler, jsonMarshalStringList]
  · intro env q
    cases hx : env.exchange (queryGet q "code") with
    | error e => right; simp [oauthExchangeHandler, hx]
    | ok tok =>
      cases hp : requestGraphAPI env tok "me" with
      | error e => right; simp [oauthExchangeHandler, hx, hp]
      | ok p =>
        cases ho : requestGraphAPI env tok "organization" with
        | error e => right; simp [oauthExchangeHandler, hx, hp, ho]
        | ok o => left; simp [oauthExchangeHandler, hx, hp, ho]

theorem content_type_policy_witness :
    (∃ e, atoi (queryGet [("slot", "x"), ("day", "Mon")] "slot") = Except.error e) ∧
    (freeClassHandler (fun _ _ => []) [("slot", "x"), ("day", "Mon")]).1.contentType
      = "text/plain; charset=utf-8" ∧
    (freeSlotHandler (fun _ _ => [1]) [("class", "10A")]).1.contentType
      = "application/json" :=
  ⟨⟨"invalid syntax", rfl⟩,
    content_type_policy.2.1 (fun _ _ => []) [("slot", "x"), ("day", "Mon")]
      ⟨"invalid syntax", rfl⟩,
    content_type_policy.2.2.1 (fun _ _ => [1]) [("class", "10A")]⟩

/-- C9: if reading the config file fails or its contents do not
unmarshal, startup produces only a fatal diagnostic (no configuration,
hence no serving loop, exists in that case); otherwise the process-wide
OAuth configuration is built exactly from the parsed fields
clientID/clientSecret/redirectURL/scopes/tenant, and the serving loop
threads it through every request unchanged. -/
theorem config_loader_fail_fast :
    (∀ (e : String) (unmarshal : String → Except String OauthJSONRepr),
      initConfig (Except.error e) unmarshal =
        Except.error ("Error reading JSON file:" ++ e)) ∧
    (∀ (file : String) (unmarshal : String → Except String OauthJSONRepr) (e : String),
      unmarshal file = Except.error e →
      initConfig (Except.ok file) unmarshal =
        Except.error ("Error unmarshalling JSON:" ++ e)) ∧
    (∀ (file : String) (unmarshal : String → Except String OauthJSONRepr)
        (j : OauthJSONRepr),
      unmarshal file = Except.ok j →
      initConfig (Except.ok file) unmarshal =
        Except.ok
          { clientID := j.clientID, clientSecret := j.clientSecret,
            redirectURL := j.redirectURL, scopes := j.scopes,
            endpoint := azureADEndpoint j.tenant }) ∧
    (∀ (cfg : OAuthConfig) (reqs : List Request), (serveAll cfg reqs).1 = cfg) := by
  refine ⟨?_, ?_, ?_, serveAll_fst⟩
  · intro e unmarshal
    rfl
  · intro file unmarshal e h
    simp [initConfig, h]
  · intro file unmarshal j h
    simp [initConfig, h]

theorem config_loader_fail_fast_witness :
    initConfig (Except.error "open ./config.json: no such file or directory")
        (fun _ => Except.error "unexpected end of JSON input") =
      Except.error
        ("Error reading JSON file:" ++ "open ./config.json: no such file or directory") ∧
    initConfig (Except.ok "not json") (fun _ => Except.error "invalid character") =
      Except.error ("Error unmarshalling JSON:" ++ "invalid character") :=
  ⟨config_loader_fail_fast.1 "open ./config.json: no such file or directory"
      (fun _ => Except.error "unexpected end of JSON input"),
    config_loader_fail_fast.2.1 "not json" (fun _ => Except.error "invalid character")
      "invalid character" rfl⟩

/-- C10: absent query parameters are read as the empty string and the
handlers proceed: the exchange handler behaves exactly as if
`code = ""` had been supplied; `/db/freeslot` and `/db/daytimetable`
call the database layer with `""` for the missing `class` or `day` and
still answer 200 with the marshalled array; only `/db/freeclass`
rejects, with 400, since an absent `slot` is not an integer. -/
theorem missing_params_default_empty :
    (∀ (env : ExchangeEnv) (q : List (String × String)),
      "code" ∉ q.map Prod.fst →
      queryGet q "code" = "" ∧
      oauthExchangeHandler env q = oauthExchangeHandler env [("code", "")]) ∧
    (∀ (db : String → String → List Int) (q : List (String × String)),
      "class" ∉ q.map Prod.fst →
      (freeSlotHandler db q).2 = [("", queryGet q "day")] ∧
      (freeSlotHandler db q).1.status = 200 ∧
      jsonMarshalIntList (db "" (queryGet q "day")) =
        Except.ok (freeSlotHandler db q).1.body) ∧
    (∀ (db : String → String → List Int) (q : List (String × String)),
      "day" ∉ q.map Prod.fst →
      (freeSlotHandler db q).2 = [(queryGet q "class", "")] ∧
      (freeSlotHandler db q).1.status = 200 ∧
      jsonMarshalIntList (db (queryGet q "class") "") =
        Except.ok (freeSlotHandler db q).1.body) ∧
    (∀ (db : String → String → List String) (q : List (String × String)),
      "class" ∉ q.map Prod.fst →
      (dayTimetableHandler db q).2 = [("", queryGet q "day")] ∧
      (dayTimetableHandler db q).1.status = 200 ∧
      jsonMarshalStringList (db "" (queryGet q "day")) =
        Except.ok (dayTimetableHandler db q).1.body) ∧
    (∀ (db : String → String → List String) (q : List (String × String)),
      "day" ∉ q.map Prod.fst →
      (dayTimetableHandler db q).2 = [(queryGet q "class", "")] ∧
      (dayTimetableHandler db q).1.status = 200 ∧
      jsonMarshalStringList (db (queryGet q "class") "") =
        Except.ok (dayTimetableHandler db q).1.body) ∧
    (∀ (db : Int → String → List String) (q : List (String × String)),
      "slot" ∉ q.map Prod.fst →
      freeClassHandler db q =
        ({ status := 400, contentType := "text/plain; charset=utf-8",
           body := "Invalid slot value\n", location := "" }, [])) := by
  have hatoi : atoi "" = Except.error "invalid syntax" := rfl
  refine ⟨?_, ?_, ?_, ?_, ?_, ?_⟩
  · intro env q h
    have h0 := queryGet_eq_empty h
    exact ⟨h0, by simp [oauthExchangeHandler, h0, queryGet]⟩
  · intro db q h
    have h0 := queryGet_eq_empty h
    simp [freeSlotHandler, h0, jsonMarshalIntList]
  · intro db q h
    have h0 := queryGet_eq_empty h
    simp [freeSlotHandler, h0, jsonMarshalIntList]
  · intro db q h
    have h0 := queryGet_eq_empty h
    simp [dayTimetableHandler, h0, jsonMarshalStringList]
  · intro db q h
    have h0 := queryGet_eq_empty h
    simp [dayTimetableHandler, h0, jsonMarshalStringList]
  · intro db q h
    have h0 := queryGet_eq_empty h
    simp [freeClassHandler, h0, hatoi, httpError]

theorem missing_params_default_empty_witness :
    ("code" ∉ ([("state", "s")] : List (String × String)).map Prod.fst) ∧
    oauthExchangeHandler
        ⟨fun c => Except.error ("no code: " ++ c), fun _ _ => DoResult.fail "x"⟩
        [("state", "s")] =
      oauthExchangeHandler
        ⟨fun c => Except.error ("no code: " ++ c), fun _ _ => DoResult.fail "x"⟩
        [("code", "")] ∧
    ("class" ∉ ([("day", "Tue")] : List (String × String)).map Prod.fst) ∧
    (freeSlotHandler (fun _ _ => [2, 5]) [("day", "Tue")]).2 = [("", "Tue")] ∧
    (freeSlotHandler (fun _ _ => [2, 5]) [("day", "Tue")]).1.status = 200 := by
  have h2 := missing_params_default_empty.2.1 (fun _ _ => [2, 5]) [("day", "Tue")]
    (by decide)
  refine ⟨by decide, ?_, by decide, ?_, h2.2.1⟩
  · exact (missing_params_default_empty.1
      ⟨fun c => Except.error ("no code: " ++ c), fun _ _ => DoResult.fail "x"⟩
      [("state", "s")] (by decide)).2
  · simpa [queryGet] using h2.1

end Coraserver
